
import Mathlib

/-!
Shallow embedding of the GeekMagic widget rendering core
(custom_components/geekmagic/widgets): gauge, chart and text widgets and
the bar-gauge layout helper.  Python floats are modelled as rationals,
Python strings as Lean strings (code points), and imperative draw calls as
explicit lists of draw operations.  Helper modules that are not part of
the sources (helpers, base, flex_layout, const, components) are modelled
from the specification; each such definition carries a doc comment
starting with `Modelled from the spec:`.
-/

/-- RGB color triple, the representation of the Python color tuples. -/
abbrev Color := Nat × Nat × Nat

/-- Modelled from the spec: const.COLOR_CYAN (const.py is not under src/),
the hard-coded default gauge color. -/
def COLOR_CYAN : Color := (0, 255, 255)

/-- Modelled from the spec: const.COLOR_DARK_GRAY (const.py is not under src/). -/
def COLOR_DARK_GRAY : Color := (40, 40, 40)

/-- Modelled from the spec: const.COLOR_GRAY (const.py is not under src/). -/
def COLOR_GRAY : Color := (128, 128, 128)

/-- Modelled from the spec: const.COLOR_WHITE (const.py is not under src/). -/
def COLOR_WHITE : Color := (255, 255, 255)

/-- One entry of a gauge's `color_thresholds` option: a mapping that may
carry a "value" key and a "color" key (either may be absent, matching
`t.get("value", 0)` and `t.get("color")` in gauge.py). -/
structure Threshold where
  value : Option ℚ
  color : Option Color
deriving DecidableEq, Repr

/-- The sort/compare key of a threshold: `t.get("value", 0)` in gauge.py. -/
def tVal (t : Threshold) : ℚ := t.value.getD 0

/-- The ascending comparison on thresholds used by the `sorted(...)` call in
`GaugeWidget._get_threshold_color`. -/
def tLE (a b : Threshold) : Prop := tVal a ≤ tVal b

instance : DecidableRel tLE := fun a b => inferInstanceAs (Decidable (tVal a ≤ tVal b))

instance : IsTotal Threshold tLE := ⟨fun a b => le_total (tVal a) (tVal b)⟩

instance : IsTrans Threshold tLE := ⟨fun _ _ _ hab hbc => le_trans hab hbc⟩

/-- `sorted(self.color_thresholds, key=lambda t: t.get("value", 0))`:
Python's sorted is stable; insertion sort with a total preorder is the
stable sort with the same behavior. -/
def sortThresholds (l : List Threshold) : List Threshold := List.insertionSort tLE l

/-- One iteration of the loop body in `GaugeWidget._get_threshold_color`:
`if value >= threshold_value and threshold_color: matching_color = ...`. -/
def thresholdStep (v : ℚ) (acc : Option Color) (t : Threshold) : Option Color :=
  if tVal t ≤ v then
    match t.color with
    | some c => some c
    | none => acc
  else acc

/-- `GaugeWidget._get_threshold_color` from gauge.py: on an empty threshold
list return None, otherwise sort ascending by value and keep the color of
the last matching entry (value <= current value, color present). -/
def get_threshold_color (thresholds : List Threshold) (v : ℚ) : Option Color :=
  if thresholds.isEmpty then none
  else (sortThresholds thresholds).foldl (thresholdStep v) none

/-- The color of the last entry of the list whose value is <= `v` and whose
color is present; `none` when there is no such entry.  This is what the
fold in `get_threshold_color` computes on the sorted list. -/
def lastMatch (v : ℚ) : List Threshold → Option Color
  | [] => none
  | t :: ts =>
    match lastMatch v ts with
    | some c => some c
    | none => if tVal t ≤ v then t.color else none

/-- A threshold matches the current value when its value is below the value
and its color is present. -/
def tMatch (v : ℚ) (t : Threshold) : Prop := tVal t ≤ v ∧ t.color.isSome

instance (v : ℚ) : DecidablePred (tMatch v) := fun t =>
  inferInstanceAs (Decidable (tVal t ≤ v ∧ t.color.isSome))

/-! ## Python number formatting, modelled on rationals

Python renders floats with f-string format specifiers; the widgets use
`f"{value:.0f}"` and `f"{value:.1f}"`.  Both round half to even.  The
embedding works over rationals, so the binary-float representation error
of the source is abstracted away; no claim depends on it. -/

/-- The decimal digit character for a digit 0-9 (larger inputs clamp to 9;
the function is only applied to remainders mod 10). -/
def digitChar10 (d : ℕ) : Char :=
  match d with
  | 0 => '0' | 1 => '1' | 2 => '2' | 3 => '3' | 4 => '4'
  | 5 => '5' | 6 => '6' | 7 => '7' | 8 => '8' | _ => '9'

/-- Decimal digit characters, fuel-based structural recursion so the
definition reduces inside the kernel; the fuel bounds the number of
divisions by 10 and `natChars` passes the number itself as fuel, which is
always sufficient. -/
def natCharsAux : ℕ → ℕ → List Char
  | 0, n => [digitChar10 n]
  | fuel + 1, n =>
    if n < 10 then [digitChar10 n]
    else natCharsAux fuel (n / 10) ++ [digitChar10 (n % 10)]

/-- Decimal digit characters of a natural number, most significant first. -/
def natChars (n : ℕ) : List Char := natCharsAux n n

/-- Round half to even, the rounding used by Python float formatting,
written over the numerator and denominator so it reduces in the kernel:
with q = n/d and f = floor q, the fractional part compares to 1/2 as
2 * (n - f * d) compares to d. -/
def roundHalfEven (q : ℚ) : ℤ :=
  let d : ℤ := (q.den : ℤ)
  let f : ℤ := q.num.fdiv d
  let r2 : ℤ := 2 * (q.num - f * d)
  if r2 < d then f
  else if d < r2 then f + 1
  else if f % 2 = 0 then f else f + 1

/-- Python `f"{value:.0f}"`: integer-rounded decimal string, with a minus
sign whenever the value is negative (Python prints "-0" for small negative
values). -/
def formatDot0 (q : ℚ) : String :=
  let n := roundHalfEven q
  if q < 0 then String.mk ('-' :: natChars n.natAbs)
  else String.mk (natChars n.natAbs)

/-- Python `f"{value:.1f}"`: one decimal digit, round half to even. -/
def formatDot1 (q : ℚ) : String :=
  let n := roundHalfEven (q * 10)
  let s := natChars (n.natAbs / 10) ++ ('.' :: natChars (n.natAbs % 10))
  if q < 0 then String.mk ('-' :: s) else String.mk s

/-! ## State provider and external helper modules -/

/-- A Home Assistant entity state as the widgets consume it: the raw state
string, its numeric interpretation when it parses as a float, and the
attributes the widgets read. -/
structure EntityState where
  stateStr : String
  stateNum : Option ℚ
  unitOfMeasurement : Option String
  friendlyName : Option String
  attrs : String → Option ℚ

/-- The state provider: identifier to current state, absent when the
identifier has no entry (also models `hass = None` as the empty provider). -/
abbrev StateProvider := String → Option EntityState

/-- The part of a widget's configuration shared by all widgets
(base.WidgetConfig): entity reference, label override, accent color. -/
structure WidgetConfig where
  entityId : Option String
  label : Option String
  color : Option Color
deriving DecidableEq, Repr

/-- Python string truthiness on an optional string: `some ""` is falsy. -/
def truthyStr (o : Option String) : Option String :=
  match o with
  | some "" => none
  | o => o

/-- Modelled from the spec: base.Widget.get_entity_state (base.py is not
under src/); the state provider returns the state for the configured
identifier, absent when there is no identifier or no entry. -/
def get_entity_state (p : StateProvider) (entityId : Option String) : Option EntityState :=
  match entityId with
  | some e => p e
  | none => none

/-- Modelled from the spec: helpers.extract_numeric (helpers.py is not
under src/).  Extracts the raw numeric value from the state, optionally
from a named attribute; a missing state or a malformed (non-numeric) value
is silently coerced to 0, never an error. -/
def extract_numeric (st : Option EntityState) (attrName : Option String) : ℚ :=
  match st with
  | none => 0
  | some s =>
    match attrName with
    | some a => (s.attrs a).getD 0
    | none => s.stateNum.getD 0

/-- Modelled from the spec: helpers.get_unit (helpers.py is not under
src/); the state-provided unit_of_measurement, empty when absent. -/
def get_unit (s : EntityState) : String := s.unitOfMeasurement.getD ""

/-- Modelled from the spec: helpers.resolve_label (helpers.py is not under
src/); the configured label override, else the state's friendly name, else
empty. -/
def resolve_label (config : WidgetConfig) (st : Option EntityState) : String :=
  match truthyStr config.label with
  | some l => l
  | none =>
    match st with
    | some s => s.friendlyName.getD ""
    | none => ""

/-- Modelled from the spec: helpers.format_value_with_unit (helpers.py is
not under src/); the value string concatenated with the resolved unit. -/
def format_value_with_unit (v unit : String) : String := v ++ unit

/-- Modelled from the spec: helpers.calculate_percent (helpers.py is not
under src/).  `clamp((value - min) / (max - min) * 100, 0, 100)`, defined
as 0 when max == min (degenerate-range policy, no division by zero). -/
def calculate_percent (value minValue maxValue : ℚ) : ℚ :=
  if maxValue = minValue then 0
  else max 0 (min 100 ((value - minValue) / (maxValue - minValue) * 100))

/-! ## Component tree and the gauge widget (gauge.py) -/

/-- The component tree nodes the gauge and text widgets emit.  Field
layout follows components.py's constructors as used from gauge.py and
text.py. -/
inductive Component where
  | textNode (content : String) (font : String) (color : Color) (align : String)
  | column (children : List Component) (align justify : String) (gap : ℕ)
  | ringGauge (percent : ℚ) (value label : String) (color background : Color)
  | arcGauge (percent : ℚ) (value label : String) (color background : Color)
  | barGauge (percent : ℚ) (value label : String) (color : Color)
      (icon : Option String) (background : Color)

/-- The percent carried by a gauge component (0 for the other nodes). -/
def Component.percentOf : Component → ℚ
  | .ringGauge p _ _ _ _ => p
  | .arcGauge p _ _ _ _ => p
  | .barGauge p _ _ _ _ _ => p
  | _ => 0

/-- The value text carried by a gauge component (empty for other nodes). -/
def Component.valueOf : Component → String
  | .ringGauge _ v _ _ _ => v
  | .arcGauge _ v _ _ _ => v
  | .barGauge _ v _ _ _ _ => v
  | _ => ""

/-- The fill color carried by a gauge component. -/
def Component.colorOf : Component → Color
  | .ringGauge _ _ _ c _ => c
  | .arcGauge _ _ _ c _ => c
  | .barGauge _ _ _ c _ _ => c
  | .textNode _ _ c _ => c
  | .column _ _ _ _ => COLOR_WHITE

/-- GaugeWidget's stored fields, exactly the assignments of
`GaugeWidget.__init__` in gauge.py. -/
structure GaugeWidget where
  config : WidgetConfig
  style : String
  minValue : ℚ
  maxValue : ℚ
  icon : Option String
  showValue : Bool
  unit : String
  attrName : Option String
  colorThresholds : List Threshold
deriving DecidableEq, Repr

/-- The value text the gauge shows: `f"{value:.0f}" if state is not None
else "--"` (gauge.py line 87). -/
def gaugeDisplayValue (state : Option EntityState) (value : ℚ) : String :=
  if state.isSome then formatDot0 value else "--"

/-- The value of `self.unit` after `GaugeWidget.render` ran (gauge.py lines
90-91: `if not self.unit and state is not None: self.unit = get_unit(state)`). -/
def gaugeUnitAfter (g : GaugeWidget) (p : StateProvider) : String :=
  match get_entity_state p g.config.entityId with
  | some s => if g.unit = "" then get_unit s else g.unit
  | none => g.unit

/-- `GaugeWidget.render` from gauge.py, lines 68-129.  The Python method
mutates `self.unit` when it is unset and the state provides a unit; the
embedding returns the rendered component together with the widget after
the call. -/
def GaugeWidget.render (g : GaugeWidget) (p : StateProvider) : Component × GaugeWidget :=
  let state := get_entity_state p g.config.entityId
  let value := extract_numeric state g.attrName
  let display_value := gaugeDisplayValue state value
  let unit1 := gaugeUnitAfter g p
  let percent := calculate_percent value g.minValue g.maxValue
  let name := resolve_label g.config state
  let threshold_color := get_threshold_color g.colorThresholds value
  let color := (threshold_color.or g.config.color).getD COLOR_CYAN
  let value_text := if g.showValue then format_value_with_unit display_value unit1 else ""
  let comp :=
    if g.style = "ring" then Component.ringGauge percent value_text name color COLOR_DARK_GRAY
    else if g.style = "arc" then Component.arcGauge percent value_text name color COLOR_DARK_GRAY
    else Component.barGauge percent value_text name color g.icon COLOR_DARK_GRAY
  (comp, { g with unit := unit1 })

/-! ## The text widget (text.py) -/

/-- TextWidget's stored fields, the assignments of `TextWidget.__init__`. -/
structure TextWidget where
  config : WidgetConfig
  text : String
  size : String
  align : String
  dynamicEntityId : Option String
deriving DecidableEq, Repr

/-- `ALIGN_MAP.get(self.align, "center")` from text.py. -/
def alignMap (s : String) : String :=
  if s = "left" then "start"
  else if s = "center" then "center"
  else if s = "right" then "end"
  else "center"

/-- `TextWidget._get_text` from text.py: the dynamic entity's state when an
entity id is configured and the provider has it, else the configured
static text. -/
def TextWidget.getText (w : TextWidget) (p : StateProvider) : String :=
  match (truthyStr w.dynamicEntityId).or (truthyStr w.config.entityId) with
  | some e =>
    match p e with
    | some st => st.stateStr
    | none => w.text
  | none => w.text

/-- `TextWidget.render` from text.py: an optional upper-cased label above
the main text, in a centered column. -/
def TextWidget.render (w : TextWidget) (p : StateProvider) : Component :=
  let text := w.getText p
  let color := w.config.color.getD COLOR_WHITE
  let align := alignMap w.align
  let children :=
    (match truthyStr w.config.label with
     | some l => [Component.textNode l.toUpper "small" COLOR_GRAY "center"]
     | none => []) ++ [Component.textNode text w.size color align]
  Component.column children "center" "center" 4

/-! ## The chart widget (chart.py) -/

/-- The pixel rectangle a widget renders into: `ctx.width`, `ctx.height`.
`int(width * f)` for the non-negative fractional paddings of chart.py is
modelled as exact floor arithmetic on naturals; the binary-float rounding
of the source can differ by at most one pixel and no claim depends on the
exact pixel value. -/
structure RenderContext where
  width : ℕ
  height : ℕ
deriving DecidableEq, Repr

/-- ChartWidget's stored fields (`ChartWidget.__init__` plus the history
buffer populated through `set_history`). -/
structure ChartWidget where
  config : WidgetConfig
  hours : ℕ
  showValue : Bool
  showRange : Bool
  fill : Bool
  colorGradient : Bool
  historyData : List ℚ
deriving DecidableEq, Repr

/-- `ChartWidget.set_history` from chart.py. -/
def ChartWidget.setHistory (w : ChartWidget) (data : List ℚ) : ChartWidget :=
  { w with historyData := data }

/-- `ChartWidget._is_binary_data` from chart.py: False on an empty buffer,
else whether every sample is exactly 0.0 or 1.0. -/
def is_binary_data (data : List ℚ) : Bool :=
  if data.isEmpty then false
  else data.all fun v => decide (v = 0 ∨ v = 1)

/-- `min(list)`; only evaluated on buffers of length >= 2 in chart.py, the
empty-list default is never reached there. -/
def listMin (data : List ℚ) : ℚ :=
  match data with
  | [] => 0
  | x :: xs => xs.foldl min x

/-- `max(list)`; same proviso as `listMin`. -/
def listMax (data : List ℚ) : ℚ :=
  match data with
  | [] => 0
  | x :: xs => xs.foldl max x

/-- The draw calls `ChartWidget.render` can issue, one constructor per call
site in chart.py. -/
inductive ChartOp where
  | headerLabel (s : String) (pos : ℕ × ℕ)
  | headerValue (s : String) (pos : ℕ × ℕ)
  | timelineBar (rect : ℕ × ℕ × ℕ × ℕ) (data : List ℚ) (onColor : Color)
  | sparkline (rect : ℕ × ℕ × ℕ × ℕ) (data : List ℚ) (color : Color) (fill gradient : Bool)
  | rangeMin (s : String) (pos : ℕ × ℕ)
  | rangeMax (s : String) (pos : ℕ × ℕ)
  | noData (pos : ℕ × ℕ)
deriving DecidableEq, Repr

def ChartOp.isSparkline : ChartOp → Bool
  | .sparkline _ _ _ _ _ => true
  | _ => false

def ChartOp.isTimeline : ChartOp → Bool
  | .timelineBar _ _ _ => true
  | _ => false

def ChartOp.isRange : ChartOp → Bool
  | .rangeMin _ _ => true
  | .rangeMax _ _ => true
  | _ => false

def ChartOp.isNoData : ChartOp → Bool
  | .noData _ => true
  | _ => false

/-- The name shown in the chart header (chart.py lines 76-82):
`self.config.label or "Chart"`, replaced by
`self.config.label or attributes.get("friendly_name", "Chart")` when the
state is present. -/
def chartName (w : ChartWidget) (state : Option EntityState) : String :=
  match state with
  | some s => (truthyStr w.config.label).getD (s.friendlyName.getD "Chart")
  | none => (truthyStr w.config.label).getD "Chart"

/-- Python `.upper()` on the label, modelled per code point. -/
def upperChars (s : String) : List Char := s.toList.map Char.toUpper

/-- The truncation of the header label (chart.py lines 97-100): upper-case
the name; when it is longer than `max_label_len`, keep the first
`max_label_len - 2` characters and append "..". -/
def truncatedLabel (maxLen : ℕ) (name : String) : List Char :=
  let u := upperChars name
  if maxLen < u.length then u.take (maxLen - 2) ++ ['.', '.'] else u

/-- The header row of `ChartWidget.render` (chart.py lines 91-119): label
left-aligned (when configured), current value right-aligned (when
`show_value` and the state parses as a number). -/
def chartHeaderOps (w : ChartWidget) (ctx : RenderContext) (p : StateProvider) : List ChartOp :=
  let padding := ctx.width * 8 / 100
  let state := get_entity_state p w.config.entityId
  let currentValue := state.bind (·.stateNum)
  let unit := match state with
    | some s => s.unitOfMeasurement.getD ""
    | none => ""
  let header_y := ctx.height * 8 / 100
  let labelOps := match truthyStr w.config.label with
    | some _ =>
      let max_label_len := max 3 (ctx.width / 12)
      [ChartOp.headerLabel (String.mk (truncatedLabel max_label_len (chartName w state)))
        (padding, header_y)]
    | none => []
  let valueOps := match currentValue with
    | some cv =>
      if w.showValue then
        [ChartOp.headerValue (formatDot1 cv ++ unit) (ctx.width - padding, header_y)]
      else []
    | none => []
  labelOps ++ valueOps

/-- `int(ctx.height * 0.15) if self.config.label else int(ctx.height * 0.08)`. -/
def chartHeaderHeight (w : ChartWidget) (ctx : RenderContext) : ℕ :=
  if (truthyStr w.config.label).isSome then ctx.height * 15 / 100 else ctx.height * 8 / 100

/-- `int(ctx.height * 0.12) if self.show_range else int(ctx.height * 0.04)`. -/
def chartFooterHeight (w : ChartWidget) (ctx : RenderContext) : ℕ :=
  if w.showRange then ctx.height * 12 / 100 else ctx.height * 4 / 100

/-- The chart area of `ChartWidget.render` (chart.py lines 121-170): with
at least two samples draw a timeline bar for binary data, else a sparkline
followed by the min/max footer when `show_range`; with fewer than two
samples draw only the "No data" placeholder centered in the chart
rectangle.  The Python guard `self._history_data and len(...) >= 2` is
equivalent to `len >= 2`. -/
def chartBodyOps (w : ChartWidget) (ctx : RenderContext) : List ChartOp :=
  let padding := ctx.width * 8 / 100
  let chart_top := chartHeaderHeight w ctx
  let chart_bottom := ctx.height - chartFooterHeight w ctx
  let chart_rect := (padding, chart_top, ctx.width - padding, chart_bottom)
  let color := w.config.color.getD COLOR_CYAN
  if 2 ≤ w.historyData.length then
    if is_binary_data w.historyData then
      [ChartOp.timelineBar chart_rect w.historyData color]
    else
      [ChartOp.sparkline chart_rect w.historyData color w.fill w.colorGradient] ++
      (if w.showRange then
        let range_y := chart_bottom + ctx.height * 8 / 100
        [ChartOp.rangeMin (formatDot1 (listMin w.historyData)) (padding, range_y),
         ChartOp.rangeMax (formatDot1 (listMax w.historyData)) (ctx.width - padding, range_y)]
      else [])
  else
    [ChartOp.noData (ctx.width / 2, (chart_top + chart_bottom) / 2)]

/-- `ChartWidget.render` from chart.py: the header draws followed by the
chart-area draws, in source order. -/
def ChartWidget.render (w : ChartWidget) (ctx : RenderContext) (p : StateProvider) :
    List ChartOp :=
  chartHeaderOps w ctx p ++ chartBodyOps w ctx

/-! ## Bar-gauge layout (layout_helpers.py and the flex solver) -/

/-- The flex solver's output rectangle for one named region. -/
structure LayoutBox where
  x : ℤ
  y : ℤ
  width : ℤ
  height : ℤ
deriving DecidableEq, Repr

def LayoutBox.right (b : LayoutBox) : ℤ := b.x + b.width

def LayoutBox.bottom (b : LayoutBox) : ℤ := b.y + b.height

def LayoutBox.center (b : LayoutBox) : ℤ × ℤ := (b.x + b.width / 2, b.y + b.height / 2)

/-- The region map `layout_bar_gauge` returns; an absent region is a key
missing from the Python dict. -/
structure BarGaugeBoxes where
  icon : Option LayoutBox
  label : Option LayoutBox
  value : Option LayoutBox
  bar : Option LayoutBox
deriving DecidableEq, Repr

/-- Modelled from the spec: flex_layout.layout_bar_gauge (flex_layout.py is
not under src/).  Decides vertical mode when the measured horizontal sum of
icon, label, gap and value widths exceeds the container width after
padding, horizontal on a tie; in vertical mode the returned boxes are
value above, bar middle band, label below, and the icon region is dropped;
in horizontal mode icon (when present) is pinned left, label follows it,
value is right-aligned and the bar spans a band below.  The exact band
fractions are modelled; only presence/absence of regions and the mode bit
are relied on by the claims. -/
def layout_bar_gauge (ctx : RenderContext) (measure : String → ℕ) (valueText : String)
    (labelText : Option String) (hasIcon : Bool) : Bool × BarGaugeBoxes :=
  let w : ℤ := ctx.width
  let h : ℤ := ctx.height
  let padding : ℤ := ctx.width * 5 / 100
  let gap : ℤ := 4
  let iconSize : ℤ := if hasIcon then max 10 (h * 23 / 100) else 0
  let labelW : ℤ := match labelText with
    | some s => measure s
    | none => 0
  let valueW : ℤ := measure valueText
  let needed := iconSize + (if hasIcon then gap else 0) + labelW + gap + valueW + 2 * padding
  if w < needed then
    (true,
      { icon := none
        label := labelText.map fun _ => ⟨padding, h * 60 / 100, w - 2 * padding, h * 40 / 100⟩
        value := some ⟨padding, 0, w - 2 * padding, h * 40 / 100⟩
        bar := some ⟨padding, h * 40 / 100, w - 2 * padding, h * 20 / 100⟩ })
  else
    (false,
      { icon := if hasIcon then some ⟨padding, 0, iconSize, h * 50 / 100⟩ else none
        label := labelText.map fun _ =>
          ⟨padding + iconSize + (if hasIcon then gap else 0), 0, labelW, h * 50 / 100⟩
        value := some ⟨w - padding - valueW, 0, valueW, h * 50 / 100⟩
        bar := some ⟨padding, h * 55 / 100, w - 2 * padding, h * 30 / 100⟩ })

/-- The draw calls `layout_bar_with_label` can issue, one constructor per
call site in layout_helpers.py. -/
inductive BarOp where
  | textDraw (s : String) (pos : ℤ × ℤ) (anchor : String)
  | barDraw (rect : ℤ × ℤ × ℤ × ℤ) (percent : ℚ) (color background : Color)
  | iconDraw (name : String) (pos : ℤ × ℤ) (size : ℤ) (color : Color)
deriving DecidableEq, Repr

def BarOp.isIcon : BarOp → Bool
  | .iconDraw _ _ _ _ => true
  | _ => false

/-- `layout_bar_with_label` from layout_helpers.py, lines 155-225: run the
flex solver, then draw value, bar, label and icon, each only when its
region is present (and, for label and icon, when the text or icon name is
truthy); the icon position uses Python floor division, which on a negative
difference still floors. -/
def layout_bar_with_label (ctx : RenderContext) (measure : String → ℕ) (percent : ℚ)
    (label value : String) (color background : Color) (icon : Option String) : List BarOp :=
  let icon_size : ℤ := max 10 ((ctx.height : ℤ) * 23 / 100)
  let res := layout_bar_gauge ctx measure value (truthyStr (some label)) (truthyStr icon).isSome
  let use_vertical := res.1
  let boxes := res.2
  (match boxes.value with
   | some box =>
     if use_vertical then [BarOp.textDraw value box.center "mm"]
     else [BarOp.textDraw value (box.right, box.center.2) "rm"]
   | none => []) ++
  (match boxes.bar with
   | some box => [BarOp.barDraw (box.x, box.y, box.right, box.bottom) percent color background]
   | none => []) ++
  (match boxes.label with
   | some box =>
     if label = "" then []
     else if use_vertical then [BarOp.textDraw (String.mk (upperChars label)) box.center "mm"]
     else [BarOp.textDraw (String.mk (upperChars label)) (box.x, box.center.2) "lm"]
   | none => []) ++
  (match boxes.icon, truthyStr icon with
   | some box, some ic =>
     [BarOp.iconDraw ic (box.x, box.y + (box.height - icon_size).fdiv 2) icon_size color]
   | _, _ => [])

/-! ## Concrete instances used by the witnesses and counterexamples -/

/-- The threshold list of the spec's worked example:
`[{0,"red"},{50,"yellow"},{80,"green"}]`. -/
def thresholdExample : List Threshold :=
  [⟨some 0, some (255, 0, 0)⟩, ⟨some 50, some (255, 255, 0)⟩, ⟨some 80, some (0, 255, 0)⟩]

/-- A bar gauge carrying the example threshold list. -/
def exampleGauge : GaugeWidget :=
  ⟨⟨none, none, none⟩, "bar", 0, 100, none, true, "", none, thresholdExample⟩

/-- A gauge with a degenerate range (max == min). -/
def degenerateGauge : GaugeWidget :=
  ⟨⟨none, none, none⟩, "bar", 50, 50, none, true, "", none, []⟩

/-- An entity state whose state string does not parse as a number. -/
def malformedState : EntityState :=
  ⟨"unavailable", none, none, none, fun _ => none⟩

/-- A provider that resolves every identifier to the malformed state. -/
def malformedProvider : StateProvider := fun _ => some malformedState

/-- A gauge bound to an entity, with no explicit unit configured. -/
def unitGauge : GaugeWidget :=
  ⟨⟨some "sensor.temp", none, none⟩, "bar", 0, 100, none, true, "", none, []⟩

/-- A temperature state carrying a unit_of_measurement attribute. -/
def unitState : EntityState :=
  ⟨"21", some 21, some "°C", some "Temp", fun _ => none⟩

/-- A provider exposing `unitState` under "sensor.temp". -/
def unitProvider : StateProvider :=
  fun e => if e = "sensor.temp" then some unitState else none

/-- A chart widget with a binary history buffer of length 4. -/
def binaryChart : ChartWidget :=
  ⟨⟨some "binary_sensor.door", some "Door", none⟩, 24, true, true, false, false, [0, 1, 1, 0]⟩

/-- A chart widget with a single-sample history buffer. -/
def shortChart : ChartWidget :=
  ⟨⟨some "sensor.cpu", some "CPU", none⟩, 24, true, true, false, false, [5]⟩

/-- A chart widget with a long configured label. -/
def labelChart : ChartWidget :=
  ⟨⟨some "sensor.cpu", some "cpu temperature history", none⟩, 24, true, true, false, false,
    [1, 2, 3]⟩

/-- A 240x135 container, a common GeekMagic panel size. -/
def exampleCtx : RenderContext := ⟨240, 135⟩

/-- A small square container that forces the flex solver into vertical
mode for the example texts. -/
def smallCtx : RenderContext := ⟨40, 40⟩

/-- A fixed-width text measure for the witnesses: 7 pixels per character. -/
def exampleMeasure : String → ℕ := fun s => 7 * s.length

/-- A text widget with a configured entity and a static fallback text. -/
def fallbackText : TextWidget :=
  ⟨⟨some "sensor.gone", none, none⟩, "fallback", "regular", "center", none⟩

/-- Two equal-valued colored thresholds, blue first. -/
def tieBlueRed : List Threshold :=
  [⟨some 0, some (0, 0, 255)⟩, ⟨some 0, some (255, 0, 0)⟩]

/-- The same two thresholds, red first. -/
def tieRedBlue : List Threshold :=
  [⟨some 0, some (255, 0, 0)⟩, ⟨some 0, some (0, 0, 255)⟩]

/-- A permutation of `thresholdExample` with the first two entries swapped. -/
def thresholdExamplePerm : List Threshold :=
  [⟨some 50, some (255, 255, 0)⟩, ⟨some 0, some (255, 0, 0)⟩, ⟨some 80, some (0, 255, 0)⟩]

/-! ## Supporting lemmas -/

theorem foldl_thresholdStep (v : ℚ) (l : List Threshold) (acc : Option Color) :
    l.foldl (thresholdStep v) acc =
      match lastMatch v l with
      | some c => some c
      | none => acc := by
  induction l generalizing acc with
  | nil => rfl
  | cons t ts ih =>
    rw [List.foldl_cons, ih]
    show _ = (match lastMatch v (t :: ts) with
      | some c => some c
      | none => acc)
    rw [lastMatch]
    cases h : lastMatch v ts with
    | some c => rfl
    | none =>
      show thresholdStep v acc t = _
      rw [thresholdStep]
      by_cases hle : tVal t ≤ v
      · rw [if_pos hle, if_pos hle]
      · rw [if_neg hle, if_neg hle]

theorem get_threshold_color_eq_lastMatch (l : List Threshold) (v : ℚ) :
    get_threshold_color l v = lastMatch v (sortThresholds l) := by
  cases l with
  | nil => rfl
  | cons t ts =>
    simp only [get_threshold_color, List.isEmpty_cons, Bool.false_eq_true, if_false,
      foldl_thresholdStep]
    cases h : lastMatch v (sortThresholds (t :: ts)) with
    | some c => rfl
    | none => rfl

theorem lastMatch_eq_none_iff (v : ℚ) (l : List Threshold) :
    lastMatch v l = none ↔ ∀ t ∈ l, ¬ tMatch v t := by
  induction l with
  | nil => simp [lastMatch]
  | cons t ts ih =>
    simp only [lastMatch, List.mem_cons]
    cases h : lastMatch v ts with
    | some c =>
      simp only [reduceCtorEq, false_iff]
      intro hall
      have : ∀ u ∈ ts, ¬ tMatch v u := fun u hu => hall u (Or.inr hu)
      rw [← ih] at this
      rw [this] at h
      exact Option.noConfusion h
    | none =>
      rw [ih] at h
      constructor
      · intro hif u hu
        rcases hu with rfl | hu
        · intro hm
          rw [if_pos hm.1] at hif
          rcases Option.isSome_iff_exists.mp hm.2 with ⟨c, hc⟩
          rw [hc] at hif
          exact Option.noConfusion hif
        · exact h u hu
      · intro hall
        by_cases hle : tVal t ≤ v
        · rw [if_pos hle]
          cases hc : t.color with
          | none => rfl
          | some c =>
            exact absurd ⟨hle, by rw [hc]; rfl⟩ (hall t (Or.inl rfl))
        · rw [if_neg hle]

theorem lastMatch_spec (v : ℚ) (l : List Threshold) (hs : l.Pairwise tLE) (c : Color)
    (h : lastMatch v l = some c) :
    ∃ t ∈ l, t.color = some c ∧ tVal t ≤ v ∧
      ∀ u ∈ l, tMatch v u → tVal u ≤ tVal t := by
  induction l with
  | nil => exact absurd h (by simp [lastMatch])
  | cons t ts ih =>
    rw [List.pairwise_cons] at hs
    simp only [lastMatch] at h
    cases hlm : lastMatch v ts with
    | some c2 =>
      rw [hlm] at h
      have hc2 : c2 = c := by
        injection h with h
      subst hc2
      rcases ih hs.2 hlm with ⟨t2, ht2mem, ht2col, ht2le, ht2max⟩
      refine ⟨t2, List.mem_cons_of_mem _ ht2mem, ht2col, ht2le, ?_⟩
      intro u hu hm
      rcases List.mem_cons.mp hu with rfl | hu
      · exact hs.1 t2 ht2mem
      · exact ht2max u hu hm
    | none =>
      rw [hlm] at h
      have hnone : ∀ u ∈ ts, ¬ tMatch v u := (lastMatch_eq_none_iff v ts).mp hlm
      by_cases hle : tVal t ≤ v
      · rw [if_pos hle] at h
        refine ⟨t, List.mem_cons_self t ts, h, hle, ?_⟩
        intro u hu hm
        rcases List.mem_cons.mp hu with rfl | hu
        · exact le_refl _
        · exact absurd hm (hnone u hu)
      · rw [if_neg hle] at h
        exact Option.noConfusion h

theorem get_threshold_color_none_iff (l : List Threshold) (v : ℚ) :
    get_threshold_color l v = none ↔ ∀ t ∈ l, ¬ tMatch v t := by
  rw [get_threshold_color_eq_lastMatch, lastMatch_eq_none_iff]
  constructor
  · intro h t ht
    exact h t (((List.perm_insertionSort tLE l).symm.mem_iff).mp ht)
  · intro h t ht
    exact h t (((List.perm_insertionSort tLE l).mem_iff).mp ht)

theorem get_threshold_color_some_spec (l : List Threshold) (v : ℚ) (c : Color)
    (h : get_threshold_color l v = some c) :
    ∃ t ∈ l, t.color = some c ∧ tVal t ≤ v ∧
      ∀ u ∈ l, tMatch v u → tVal u ≤ tVal t := by
  rw [get_threshold_color_eq_lastMatch] at h
  have hperm := List.perm_insertionSort tLE l
  rcases lastMatch_spec v _ (List.sorted_insertionSort tLE l) c h with
    ⟨t, htmem, htcol, htle, htmax⟩
  refine ⟨t, hperm.mem_iff.mp htmem, htcol, htle, ?_⟩
  intro u hu hm
  exact htmax u (hperm.symm.mem_iff.mp hu) hm

theorem digitChar10_ne_dash (d : ℕ) : digitChar10 d ≠ '-' := by
  unfold digitChar10
  split <;> decide

theorem natCharsAux_ne_dash (fuel : ℕ) : ∀ n, ∀ c ∈ natCharsAux fuel n, c ≠ '-' := by
  induction fuel with
  | zero =>
    intro n c hc
    rw [natCharsAux, List.mem_singleton] at hc
    subst hc
    exact digitChar10_ne_dash _
  | succ f ih =>
    intro n c hc
    rw [natCharsAux] at hc
    rcases Nat.lt_or_ge n 10 with hn | hn
    · rw [if_pos hn, List.mem_singleton] at hc
      subst hc
      exact digitChar10_ne_dash _
    · rw [if_neg (Nat.not_lt.mpr hn)] at hc
      rcases List.mem_append.mp hc with hl | hr
      · exact ih (n / 10) c hl
      · rw [List.mem_singleton] at hr
        subst hr
        exact digitChar10_ne_dash _

theorem natChars_ne_dash (n : ℕ) : ∀ c ∈ natChars n, c ≠ '-' :=
  natCharsAux_ne_dash n n

theorem formatDot0_ne_placeholder (q : ℚ) : formatDot0 q ≠ "--" := by
  unfold formatDot0
  have hdash : ("--" : String) = String.mk ['-', '-'] := rfl
  split
  · intro h
    rw [hdash] at h
    injection h with h
    injection h with h1 h2
    exact natChars_ne_dash _ '-' (h2 ▸ List.mem_singleton.mpr rfl) rfl
  · intro h
    rw [hdash] at h
    injection h with h
    exact natChars_ne_dash _ '-' (h ▸ List.mem_cons_self '-' ['-']) rfl

theorem optionOr_getD {α : Type} (a b : Option α) (d : α) :
    (a.or b).getD d = a.getD (b.getD d) := by
  cases a <;> rfl

theorem gauge_render_colorOf (g : GaugeWidget) (p : StateProvider) :
    ((g.render p).1).colorOf =
      ((get_threshold_color g.colorThresholds
          (extract_numeric (get_entity_state p g.config.entityId) g.attrName)).or
        g.config.color).getD COLOR_CYAN := by
  simp only [GaugeWidget.render]
  split
  · rfl
  · split
    · rfl
    · rfl

theorem gauge_render_percentOf (g : GaugeWidget) (p : StateProvider) :
    ((g.render p).1).percentOf =
      calculate_percent (extract_numeric (get_entity_state p g.config.entityId) g.attrName)
        g.minValue g.maxValue := by
  simp only [GaugeWidget.render]
  split
  · rfl
  · split
    · rfl
    · rfl

theorem gauge_render_valueOf (g : GaugeWidget) (p : StateProvider) :
    ((g.render p).1).valueOf =
      (if g.showValue then
        format_value_with_unit
          (gaugeDisplayValue (get_entity_state p g.config.entityId)
            (extract_numeric (get_entity_state p g.config.entityId) g.attrName))
          (gaugeUnitAfter g p)
      else "") := by
  simp only [GaugeWidget.render]
  split
  · rfl
  · split
    · rfl
    · rfl

theorem gauge_render_snd (g : GaugeWidget) (p : StateProvider) :
    (g.render p).2 = { g with unit := gaugeUnitAfter g p } := rfl

theorem gaugeUnitAfter_idem (g : GaugeWidget) (p : StateProvider) :
    gaugeUnitAfter { g with unit := gaugeUnitAfter g p } p = gaugeUnitAfter g p := by
  show (match get_entity_state p g.config.entityId with
    | some s => if gaugeUnitAfter g p = "" then get_unit s else gaugeUnitAfter g p
    | none => gaugeUnitAfter g p) = gaugeUnitAfter g p
  unfold gaugeUnitAfter
  cases hst : get_entity_state p g.config.entityId with
  | none => rfl
  | some s =>
    by_cases hgu : g.unit = ""
    · simp only [if_pos hgu]
      by_cases h2 : get_unit s = ""
      · rw [if_pos h2]
      · rw [if_neg h2]
    · simp only [if_neg hgu]

/-! ## Claim theorems -/

/-- C3: for every gauge widget with extracted numeric value v, the rendered
fill percent equals clamp((v - min) / (max - min) * 100, 0, 100), and when
max == min the percent is defined as 0; `calculate_percent` and the render
pipeline are total functions, so no division error can occur. -/
theorem claim_C3_percent_clamp (g : GaugeWidget) (p : StateProvider) :
    (g.maxValue ≠ g.minValue →
      ((g.render p).1).percentOf =
        max 0 (min 100
          ((extract_numeric (get_entity_state p g.config.entityId) g.attrName - g.minValue) /
            (g.maxValue - g.minValue) * 100)))
    ∧ (g.maxValue = g.minValue → ((g.render p).1).percentOf = 0) := by
  constructor
  · intro h
    rw [gauge_render_percentOf, calculate_percent, if_neg h]
  · intro h
    rw [gauge_render_percentOf, calculate_percent, if_pos h]

/-- Witness for C3 at the degenerate gauge (max == min == 50). -/
theorem claim_C3_witness :
    degenerateGauge.maxValue = degenerateGauge.minValue ∧
    ((degenerateGauge.render (fun _ => none)).1).percentOf = 0 :=
  ⟨by decide, (claim_C3_percent_clamp degenerateGauge (fun _ => none)).2 (by decide)⟩

/-- C4 counterexample: a present but non-numeric state does NOT render the
"--" placeholder; the coerced value 0 is formatted instead, so the claim
that a malformed state value is treated identically to a missing state is
false for the rendered value text. -/
theorem claim_C4_counterexample :
    malformedState.stateNum = none ∧
    ((unitGauge.render malformedProvider).1).valueOf = "0" ∧
    ((unitGauge.render malformedProvider).1).valueOf ≠ "--" := by decide

/-- C4 amended: the rendered value text is the "--" placeholder exactly
when the state identifier resolves to no state; a present state always
renders the integer-rounded formatting of the extracted value (the coerced
0 for a non-numeric value), never the placeholder. -/
theorem claim_C4_amended (g : GaugeWidget) (p : StateProvider) :
    (gaugeDisplayValue (get_entity_state p g.config.entityId)
        (extract_numeric (get_entity_state p g.config.entityId) g.attrName) = "--"
      ↔ get_entity_state p g.config.entityId = none) ∧
    (∀ s, get_entity_state p g.config.entityId = some s →
      gaugeDisplayValue (get_entity_state p g.config.entityId)
          (extract_numeric (get_entity_state p g.config.entityId) g.attrName) =
        formatDot0 (extract_numeric (some s) g.attrName)) := by
  cases hst : get_entity_state p g.config.entityId with
  | none =>
    refine ⟨⟨fun _ => rfl, fun _ => rfl⟩, ?_⟩
    intro s hs
    exact Option.noConfusion hs
  | some s0 =>
    constructor
    · constructor
      · intro h
        exact absurd h (formatDot0_ne_placeholder _)
      · intro h
        exact Option.noConfusion h
    · intro s hs
      cases Option.some.inj hs
      rfl

/-- Witness for C4's amended claim at the malformed state. -/
theorem claim_C4_witness :
    get_entity_state malformedProvider unitGauge.config.entityId = some malformedState ∧
    gaugeDisplayValue (get_entity_state malformedProvider unitGauge.config.entityId)
        (extract_numeric (get_entity_state malformedProvider unitGauge.config.entityId)
          unitGauge.attrName) =
      formatDot0 (extract_numeric (some malformedState) unitGauge.attrName) :=
  ⟨rfl, (claim_C4_amended unitGauge malformedProvider).2 malformedState rfl⟩

/-- C6 counterexample: `GaugeWidget.render` mutates the stored `unit` field
(gauge.py lines 90-91), so a widget's stored fields after render do not
always equal their values before render: a gauge with no configured unit
picks up the state-provided unit. -/
theorem claim_C6_counterexample :
    unitGauge.unit = "" ∧
    ((unitGauge.render unitProvider).2).unit = "°C" ∧
    (unitGauge.render unitProvider).2 ≠ unitGauge := by decide

/-- C6 amended: a gauge render call mutates exactly the stored `unit`
field, setting it to `gaugeUnitAfter` (the state-provided unit when no
unit was configured); the mutation is idempotent and a second render with
the same provider produces the identical component and widget, so repeated
renders with identical provider state yield identical output. -/
theorem claim_C6_amended (g : GaugeWidget) (p : StateProvider) :
    ((g.render p).2.render p).1 = (g.render p).1 ∧
    ((g.render p).2.render p).2 = (g.render p).2 ∧
    (g.render p).2 = { g with unit := gaugeUnitAfter g p } := by
  refine ⟨?_, ?_, gauge_render_snd g p⟩
  · rw [gauge_render_snd g p]
    show ({ g with unit := gaugeUnitAfter g p }.render p).1 = (g.render p).1
    simp only [GaugeWidget.render]
    rw [gaugeUnitAfter_idem]
  · rw [gauge_render_snd ((g.render p).2) p, gauge_render_snd g p]
    show ({ g with unit := gaugeUnitAfter { g with unit := gaugeUnitAfter g p } p } :
      GaugeWidget) = { g with unit := gaugeUnitAfter g p }
    rw [gaugeUnitAfter_idem]

/-- C7: when the state provider has no entry for the configured
identifier, rendering degrades rather than failing (all embedded renders
are total functions): the text widget falls back to its configured static
text and the gauge widget's value text is the "--" placeholder with the
configured unit. -/
theorem claim_C7_missing_state (tw : TextWidget) (g : GaugeWidget) (p : StateProvider)
    (htw : ∀ e, (truthyStr tw.dynamicEntityId).or (truthyStr tw.config.entityId) = some e →
      p e = none)
    (hg : get_entity_state p g.config.entityId = none)
    (hsv : g.showValue = true) :
    tw.getText p = tw.text ∧
    ((g.render p).1).valueOf = format_value_with_unit "--" g.unit := by
  constructor
  · unfold TextWidget.getText
    cases he : (truthyStr tw.dynamicEntityId).or (truthyStr tw.config.entityId) with
    | none => rfl
    | some e =>
      show (match p e with
        | some st => st.stateStr
        | none => tw.text) = tw.text
      rw [htw e he]
  · rw [gauge_render_valueOf, if_pos hsv]
    unfold gaugeUnitAfter gaugeDisplayValue
    rw [hg]
    rfl

/-- Witness for C7: an empty provider, the fallback text widget and the
unit gauge. -/
theorem claim_C7_witness :
    TextWidget.getText fallbackText (fun _ => none) = "fallback" ∧
    ((unitGauge.render (fun _ => none)).1).valueOf = format_value_with_unit "--" unitGauge.unit :=
  claim_C7_missing_state fallbackText unitGauge (fun _ => none) (fun _ _ => rfl) rfl rfl

theorem get_threshold_color_char (l : List Threshold) (v : ℚ) (c : Color)
    (hdist : (l.filter fun t => t.color.isSome).Pairwise fun a b => tVal a ≠ tVal b) :
    get_threshold_color l v = some c ↔
      ∃ t ∈ l, t.color = some c ∧ tVal t ≤ v ∧ ∀ u ∈ l, tMatch v u → tVal u ≤ tVal t := by
  constructor
  · exact get_threshold_color_some_spec l v c
  · rintro ⟨t, htmem, htcol, htle, htmax⟩
    have htm : tMatch v t := ⟨htle, by rw [htcol]; rfl⟩
    cases hgtc : get_threshold_color l v with
    | none => exact absurd htm ((get_threshold_color_none_iff _ _).mp hgtc t htmem)
    | some c2 =>
      rcases get_threshold_color_some_spec _ _ _ hgtc with ⟨t2, ht2mem, ht2col, ht2le, ht2max⟩
      have h12 : tVal t ≤ tVal t2 := ht2max t htmem htm
      have h21 : tVal t2 ≤ tVal t := htmax t2 ht2mem ⟨ht2le, by rw [ht2col]; rfl⟩
      have heq : tVal t = tVal t2 := le_antisymm h12 h21
      have hsymm : Symmetric (fun a b : Threshold => tVal a ≠ tVal b) :=
        fun _ _ h he => h he.symm
      have hmem1 : t ∈ l.filter (fun t => t.color.isSome) :=
        List.mem_filter.mpr ⟨htmem, by rw [htcol]; rfl⟩
      have hmem2 : t2 ∈ l.filter (fun t => t.color.isSome) :=
        List.mem_filter.mpr ⟨ht2mem, by rw [ht2col]; rfl⟩
      by_cases hte : t = t2
      · subst hte
        have hc : c = c2 := Option.some.inj (htcol.symm.trans ht2col)
        rw [hc]
      · exact absurd heq (List.Pairwise.forall hsymm hdist hmem1 hmem2 hte)

/-- C1: for a gauge widget with a non-empty color_thresholds list (all
entries colored), the rendered color is the color of a highest-valued
threshold whose value is <= the current value; with no matching threshold
it falls back to the configured accent color and then to COLOR_CYAN; and
the spec's worked example resolves 65 to yellow, 10 to red, 95 to green. -/
theorem claim_C1_gauge_threshold_color (g : GaugeWidget) (p : StateProvider)
    (_hne : g.colorThresholds ≠ [])
    (hcol : ∀ t ∈ g.colorThresholds, t.color.isSome) :
    ((∃ t ∈ g.colorThresholds,
        tVal t ≤ extract_numeric (get_entity_state p g.config.entityId) g.attrName) →
      ∃ t ∈ g.colorThresholds,
        tVal t ≤ extract_numeric (get_entity_state p g.config.entityId) g.attrName ∧
        t.color = some ((g.render p).1).colorOf ∧
        ∀ u ∈ g.colorThresholds,
          tVal u ≤ extract_numeric (get_entity_state p g.config.entityId) g.attrName →
            tVal u ≤ tVal t) ∧
    ((∀ t ∈ g.colorThresholds,
        ¬ tVal t ≤ extract_numeric (get_entity_state p g.config.entityId) g.attrName) →
      ((g.render p).1).colorOf = g.config.color.getD COLOR_CYAN) ∧
    get_threshold_color thresholdExample 65 = some (255, 255, 0) ∧
    get_threshold_color thresholdExample 10 = some (255, 0, 0) ∧
    get_threshold_color thresholdExample 95 = some (0, 255, 0) := by
  refine ⟨?_, ?_, by decide, by decide, by decide⟩
  · rintro ⟨t0, ht0mem, ht0le⟩
    cases hgtc : get_threshold_color g.colorThresholds
        (extract_numeric (get_entity_state p g.config.entityId) g.attrName) with
    | none =>
      exact absurd ⟨ht0le, hcol t0 ht0mem⟩
        ((get_threshold_color_none_iff _ _).mp hgtc t0 ht0mem)
    | some c =>
      rcases get_threshold_color_some_spec _ _ _ hgtc with ⟨t, htmem, htcol, htle, htmax⟩
      refine ⟨t, htmem, htle, ?_, ?_⟩
      · rw [gauge_render_colorOf, hgtc]
        exact htcol
      · intro u humem hule
        exact htmax u humem ⟨hule, hcol u humem⟩
  · intro hnone
    have hgtc : get_threshold_color g.colorThresholds
        (extract_numeric (get_entity_state p g.config.entityId) g.attrName) = none :=
      (get_threshold_color_none_iff _ _).mpr (fun t ht hm => hnone t ht hm.1)
    rw [gauge_render_colorOf, hgtc]
    rfl

/-- Witness for C1 at the example gauge and the empty provider. -/
theorem claim_C1_witness :
    exampleGauge.colorThresholds ≠ [] ∧
    (∀ t ∈ exampleGauge.colorThresholds, t.color.isSome) ∧
    get_threshold_color thresholdExample 65 = some (255, 255, 0) :=
  ⟨by decide, by decide,
    (claim_C1_gauge_threshold_color exampleGauge (fun _ => none) (by decide) (by decide)).2.2.1⟩

/-- C10 counterexample: threshold color resolution is NOT invariant under
permutation when two colored thresholds share the same value: Python's
stable sort preserves their relative order and the loop keeps the later
one, so swapping two equal-valued entries changes the result. -/
theorem claim_C10_counterexample :
    tieBlueRed.Perm tieRedBlue ∧
    get_threshold_color tieBlueRed 0 = some (255, 0, 0) ∧
    get_threshold_color tieRedBlue 0 = some (0, 0, 255) ∧
    get_threshold_color tieBlueRed 0 ≠ get_threshold_color tieRedBlue 0 :=
  ⟨List.Perm.swap _ _ _, by decide, by decide, by decide⟩

/-- C10 amended: threshold color resolution is invariant under permutation
provided the color-bearing thresholds have pairwise distinct values;
entries lacking a color are skipped, and the result is the color of the
highest threshold with value <= v and a color present, or none when no
such entry exists. -/
theorem claim_C10_amended (l l2 : List Threshold) (v : ℚ)
    (hperm : l.Perm l2)
    (hdist : (l.filter fun t => t.color.isSome).Pairwise fun a b => tVal a ≠ tVal b) :
    get_threshold_color l v = get_threshold_color l2 v ∧
    (∀ c, get_threshold_color l v = some c ↔
      ∃ t ∈ l, t.color = some c ∧ tVal t ≤ v ∧ ∀ u ∈ l, tMatch v u → tVal u ≤ tVal t) ∧
    (get_threshold_color l v = none ↔ ∀ t ∈ l, ¬ tMatch v t) := by
  have hpf : (l.filter fun t => t.color.isSome).Perm (l2.filter fun t => t.color.isSome) :=
    List.Perm.filter _ hperm
  have hdist2 : (l2.filter fun t => t.color.isSome).Pairwise fun a b => tVal a ≠ tVal b :=
    (List.Perm.pairwise_iff (fun h he => h he.symm) hpf).mp hdist
  refine ⟨?_, fun c => get_threshold_color_char l v c hdist, get_threshold_color_none_iff l v⟩
  cases hgtc : get_threshold_color l v with
  | none =>
    have hno := (get_threshold_color_none_iff l v).mp hgtc
    have hno2 : ∀ t ∈ l2, ¬ tMatch v t := fun t ht => hno t (hperm.mem_iff.mpr ht)
    rw [(get_threshold_color_none_iff l2 v).mpr hno2]
  | some c =>
    rcases get_threshold_color_some_spec _ _ _ hgtc with ⟨t, htmem, htcol, htle, htmax⟩
    have h2 : get_threshold_color l2 v = some c := by
      rw [get_threshold_color_char l2 v c hdist2]
      exact ⟨t, hperm.mem_iff.mp htmem, htcol, htle,
        fun u hu hm => htmax u (hperm.mem_iff.mpr hu) hm⟩
    rw [h2]

/-- Witness for C10's amended claim: the example list and a permutation of
it agree at value 65. -/
theorem claim_C10_witness :
    thresholdExample.Perm thresholdExamplePerm ∧
    get_threshold_color thresholdExample 65 = get_threshold_color thresholdExamplePerm 65 :=
  ⟨List.Perm.swap _ _ _,
    (claim_C10_amended thresholdExample thresholdExamplePerm 65 (List.Perm.swap _ _ _)
      (by decide)).1⟩

theorem chartHeaderOps_kinds (w : ChartWidget) (ctx : RenderContext) (p : StateProvider) :
    ∀ op ∈ chartHeaderOps w ctx p,
      op.isSparkline = false ∧ op.isTimeline = false ∧ op.isRange = false := by
  intro op hop
  simp only [chartHeaderOps] at hop
  rcases List.mem_append.mp hop with h | h
  · split at h
    · rw [List.mem_singleton] at h
      subst h
      exact ⟨rfl, rfl, rfl⟩
    · exact absurd h (List.not_mem_nil op)
  · split at h
    · split at h
      · rw [List.mem_singleton] at h
        subst h
        exact ⟨rfl, rfl, rfl⟩
      · exact absurd h (List.not_mem_nil op)
    · exact absurd h (List.not_mem_nil op)

theorem chartBodyOps_binary (w : ChartWidget) (ctx : RenderContext)
    (hlen : 2 ≤ w.historyData.length) (hb : is_binary_data w.historyData = true) :
    chartBodyOps w ctx = [ChartOp.timelineBar
      (ctx.width * 8 / 100, chartHeaderHeight w ctx, ctx.width - ctx.width * 8 / 100,
        ctx.height - chartFooterHeight w ctx)
      w.historyData (w.config.color.getD COLOR_CYAN)] := by
  simp only [chartBodyOps]
  rw [if_pos hlen, hb]
  rw [if_pos rfl]

theorem chartBodyOps_sparkline (w : ChartWidget) (ctx : RenderContext)
    (hlen : 2 ≤ w.historyData.length) (hb : is_binary_data w.historyData = false) :
    chartBodyOps w ctx = ChartOp.sparkline
        (ctx.width * 8 / 100, chartHeaderHeight w ctx, ctx.width - ctx.width * 8 / 100,
          ctx.height - chartFooterHeight w ctx)
        w.historyData (w.config.color.getD COLOR_CYAN) w.fill w.colorGradient ::
      (if w.showRange then
        [ChartOp.rangeMin (formatDot1 (listMin w.historyData))
            (ctx.width * 8 / 100,
              ctx.height - chartFooterHeight w ctx + ctx.height * 8 / 100),
         ChartOp.rangeMax (formatDot1 (listMax w.historyData))
            (ctx.width - ctx.width * 8 / 100,
              ctx.height - chartFooterHeight w ctx + ctx.height * 8 / 100)]
      else []) := by
  simp only [chartBodyOps]
  rw [if_pos hlen, hb]
  rw [if_neg (by decide)]
  rfl

theorem is_binary_data_iff (data : List ℚ) (hne : data.isEmpty = false) :
    is_binary_data data = true ↔ ∀ v ∈ data, v = 0 ∨ v = 1 := by
  unfold is_binary_data
  rw [hne]
  simp only [Bool.false_eq_true, if_false, List.all_eq_true, decide_eq_true_eq]

/-- C2: for every history buffer of length >= 2 the chart renders a
timeline bar iff every sample is exactly 0.0 or 1.0; a length >= 2 buffer
with a sample outside {0,1} always renders a sparkline and never a
timeline bar; the empty buffer is never classified as binary. -/
theorem claim_C2_binary_mode (w : ChartWidget) (ctx : RenderContext) (p : StateProvider)
    (hlen : 2 ≤ w.historyData.length) :
    ((∃ op ∈ w.render ctx p, op.isTimeline = true) ↔ ∀ v ∈ w.historyData, v = 0 ∨ v = 1) ∧
    ((∃ v ∈ w.historyData, ¬(v = 0 ∨ v = 1)) →
      (∃ op ∈ w.render ctx p, op.isSparkline = true) ∧
      ∀ op ∈ w.render ctx p, op.isTimeline = false) ∧
    is_binary_data [] = false := by
  have hne : w.historyData.isEmpty = false := by
    cases hd : w.historyData with
    | nil => rw [hd] at hlen; exact absurd hlen (by decide)
    | cons a l => rfl
  have hbin := is_binary_data_iff w.historyData hne
  refine ⟨?_, ?_, rfl⟩
  · constructor
    · rintro ⟨op, hop, htl⟩
      cases hb : is_binary_data w.historyData with
      | true => exact hbin.mp hb
      | false =>
        exfalso
        unfold ChartWidget.render at hop
        rcases List.mem_append.mp hop with h | h
        · rw [(chartHeaderOps_kinds w ctx p op h).2.1] at htl
          exact Bool.noConfusion htl
        · rw [chartBodyOps_sparkline w ctx hlen hb] at h
          rcases List.mem_cons.mp h with rfl | h
          · exact Bool.noConfusion htl
          · split at h
            · rcases List.mem_cons.mp h with rfl | h
              · exact Bool.noConfusion htl
              · rcases List.mem_cons.mp h with rfl | h
                · exact Bool.noConfusion htl
                · exact absurd h (List.not_mem_nil op)
            · exact absurd h (List.not_mem_nil op)
    · intro hall
      refine ⟨ChartOp.timelineBar
        (ctx.width * 8 / 100, chartHeaderHeight w ctx, ctx.width - ctx.width * 8 / 100,
          ctx.height - chartFooterHeight w ctx)
        w.historyData (w.config.color.getD COLOR_CYAN), ?_, rfl⟩
      unfold ChartWidget.render
      apply List.mem_append_right
      rw [chartBodyOps_binary w ctx hlen (hbin.mpr hall)]
      exact List.mem_singleton.mpr rfl
  · rintro ⟨v, hvmem, hv⟩
    have hb : is_binary_data w.historyData = false := by
      cases hb2 : is_binary_data w.historyData with
      | true => exact absurd (hbin.mp hb2 v hvmem) hv
      | false => rfl
    constructor
    · refine ⟨ChartOp.sparkline
        (ctx.width * 8 / 100, chartHeaderHeight w ctx, ctx.width - ctx.width * 8 / 100,
          ctx.height - chartFooterHeight w ctx)
        w.historyData (w.config.color.getD COLOR_CYAN) w.fill w.colorGradient, ?_, rfl⟩
      unfold ChartWidget.render
      apply List.mem_append_right
      rw [chartBodyOps_sparkline w ctx hlen hb]
      exact List.mem_cons_self _ _
    · intro op hop
      unfold ChartWidget.render at hop
      rcases List.mem_append.mp hop with h | h
      · exact (chartHeaderOps_kinds w ctx p op h).2.1
      · rw [chartBodyOps_sparkline w ctx hlen hb] at h
        rcases List.mem_cons.mp h with rfl | h
        · rfl
        · split at h
          · rcases List.mem_cons.mp h with rfl | h
            · rfl
            · rcases List.mem_cons.mp h with rfl | h
              · rfl
              · exact absurd h (List.not_mem_nil op)
          · exact absurd h (List.not_mem_nil op)

/-- Witness for C2 at the binary chart [0, 1, 1, 0]. -/
theorem claim_C2_witness :
    2 ≤ binaryChart.historyData.length ∧
    (∀ v ∈ binaryChart.historyData, v = 0 ∨ v = 1) ∧
    ∃ op ∈ binaryChart.render exampleCtx (fun _ => none), op.isTimeline = true :=
  ⟨by decide, by decide,
    (claim_C2_binary_mode binaryChart exampleCtx (fun _ => none) (by decide)).1.mpr
      (by decide)⟩

/-- C5: with fewer than two samples the chart-area draw list is exactly
the "No data" placeholder centered in the chart rectangle, the placeholder
appears in the full render trace, and the trace contains no sparkline, no
timeline bar and no min/max footer label. -/
theorem claim_C5_no_data (w : ChartWidget) (ctx : RenderContext) (p : StateProvider)
    (hlen : w.historyData.length < 2) :
    chartBodyOps w ctx =
      [ChartOp.noData (ctx.width / 2,
        (chartHeaderHeight w ctx + (ctx.height - chartFooterHeight w ctx)) / 2)] ∧
    ChartOp.noData (ctx.width / 2,
        (chartHeaderHeight w ctx + (ctx.height - chartFooterHeight w ctx)) / 2) ∈
      w.render ctx p ∧
    ∀ op ∈ w.render ctx p,
      op.isSparkline = false ∧ op.isTimeline = false ∧ op.isRange = false := by
  have hbody : chartBodyOps w ctx =
      [ChartOp.noData (ctx.width / 2,
        (chartHeaderHeight w ctx + (ctx.height - chartFooterHeight w ctx)) / 2)] := by
    simp only [chartBodyOps]
    rw [if_neg (by omega)]
  refine ⟨hbody, ?_, ?_⟩
  · unfold ChartWidget.render
    apply List.mem_append_right
    rw [hbody]
    exact List.mem_singleton.mpr rfl
  · intro op hop
    unfold ChartWidget.render at hop
    rcases List.mem_append.mp hop with h | h
    · exact chartHeaderOps_kinds w ctx p op h
    · rw [hbody, List.mem_singleton] at h
      subst h
      exact ⟨rfl, rfl, rfl⟩

/-- Witness for C5 at the single-sample chart. -/
theorem claim_C5_witness :
    shortChart.historyData.length < 2 ∧
    chartBodyOps shortChart exampleCtx =
      [ChartOp.noData (exampleCtx.width / 2,
        (chartHeaderHeight shortChart exampleCtx +
          (exampleCtx.height - chartFooterHeight shortChart exampleCtx)) / 2)] :=
  ⟨by decide,
    (claim_C5_no_data shortChart exampleCtx (fun _ => none) (by decide)).1⟩

theorem truncatedLabel_length_le (maxLen : ℕ) (h3 : 3 ≤ maxLen) (name : String) :
    (String.mk (truncatedLabel maxLen name)).length ≤ maxLen := by
  show (truncatedLabel maxLen name).length ≤ maxLen
  simp only [truncatedLabel]
  split
  · rename_i h
    rw [List.length_append, List.length_take, Nat.min_eq_left (by omega)]
    show maxLen - 2 + 2 ≤ maxLen
    omega
  · rename_i h
    exact Nat.le_of_not_lt h

/-- C9: the displayed chart header label never exceeds
max(3, width // 12) characters; an upper-cased label longer than the limit
is replaced by its first limit-2 characters followed by "..", and a label
at or under the limit is displayed unchanged. -/
theorem claim_C9_label_truncation (w : ChartWidget) (ctx : RenderContext) (p : StateProvider)
    (lbl : String) (hlbl : truthyStr w.config.label = some lbl) :
    ChartOp.headerLabel (String.mk (truncatedLabel (max 3 (ctx.width / 12)) lbl))
        (ctx.width * 8 / 100, ctx.height * 8 / 100) ∈ w.render ctx p ∧
    (String.mk (truncatedLabel (max 3 (ctx.width / 12)) lbl)).length ≤
      max 3 (ctx.width / 12) ∧
    ((upperChars lbl).length ≤ max 3 (ctx.width / 12) →
      truncatedLabel (max 3 (ctx.width / 12)) lbl = upperChars lbl) ∧
    (max 3 (ctx.width / 12) < (upperChars lbl).length →
      truncatedLabel (max 3 (ctx.width / 12)) lbl =
        (upperChars lbl).take (max 3 (ctx.width / 12) - 2) ++ ['.', '.']) := by
  have hname : chartName w (get_entity_state p w.config.entityId) = lbl := by
    unfold chartName
    cases get_entity_state p w.config.entityId <;> rw [hlbl] <;> rfl
  refine ⟨?_, truncatedLabel_length_le _ (Nat.le_max_left 3 _) lbl, ?_, ?_⟩
  · unfold ChartWidget.render
    apply List.mem_append_left
    simp only [chartHeaderOps, hlbl, hname]
    apply List.mem_append_left
    exact List.mem_singleton.mpr rfl
  · intro hle
    unfold truncatedLabel
    rw [if_neg (Nat.not_lt.mpr hle)]
  · intro hgt
    unfold truncatedLabel
    rw [if_pos hgt]

/-- Witness for C9 at the long-label chart in the 240-wide container. -/
theorem claim_C9_witness :
    truthyStr labelChart.config.label = some "cpu temperature history" ∧
    (String.mk (truncatedLabel (max 3 (exampleCtx.width / 12)) "cpu temperature history")).length ≤
      max 3 (exampleCtx.width / 12) :=
  ⟨by decide,
    (claim_C9_label_truncation labelChart exampleCtx (fun _ => none)
      "cpu temperature history" (by decide)).2.1⟩

theorem ite_pair_icon {c : Prop} [Decidable c] {A B : Bool × BarGaugeBoxes}
    (hA : A.1 = true → A.2.icon = none) (hB : B.1 = true → B.2.icon = none)
    (h : (if c then A else B).1 = true) : (if c then A else B).2.icon = none := by
  by_cases hc : c
  · rw [if_pos hc] at h ⊢
    exact hA h
  · rw [if_neg hc] at h ⊢
    exact hB h

/-- C8: when the flex solver selects vertical mode for the bar gauge
layout, the icon region is absent from the returned boxes and
`layout_bar_with_label` draws no icon, even when an icon is configured;
equivalently, an icon is drawn only in horizontal mode. -/
theorem claim_C8_icon_vertical (ctx : RenderContext) (measure : String → ℕ) (percent : ℚ)
    (label value : String) (color background : Color) (icon : Option String)
    (hv : (layout_bar_gauge ctx measure value (truthyStr (some label))
      (truthyStr icon).isSome).1 = true) :
    (layout_bar_gauge ctx measure value (truthyStr (some label))
      (truthyStr icon).isSome).2.icon = none ∧
    ∀ op ∈ layout_bar_with_label ctx measure percent label value color background icon,
      op.isIcon = false := by
  have hbox : (layout_bar_gauge ctx measure value (truthyStr (some label))
      (truthyStr icon).isSome).2.icon = none := by
    simp only [layout_bar_gauge] at hv ⊢
    exact ite_pair_icon (fun _ => rfl) (fun hb => Bool.noConfusion hb) hv
  refine ⟨hbox, ?_⟩
  intro op hop
  simp only [layout_bar_with_label] at hop
  rcases List.mem_append.mp hop with h | h
  · rcases List.mem_append.mp h with h2 | h2
    · rcases List.mem_append.mp h2 with h3 | h3
      · split at h3
        · split at h3
          · rw [List.mem_singleton] at h3
            subst h3
            rfl
          · rw [List.mem_singleton] at h3
            subst h3
            rfl
        · exact absurd h3 (List.not_mem_nil op)
      · split at h3
        · rw [List.mem_singleton] at h3
          subst h3
          rfl
        · exact absurd h3 (List.not_mem_nil op)
    · split at h2
      · split at h2
        · exact absurd h2 (List.not_mem_nil op)
        · rw [List.mem_singleton] at h2
          subst h2
          rfl
      · exact absurd h2 (List.not_mem_nil op)
  · split at h
    · rename_i b s hic htr
      rw [hbox] at hic
      exact absurd hic (by simp)
    · exact absurd h (List.not_mem_nil op)

/-- Witness for C8: a 40x40 container with icon, label "cpu" and value
"100%" at 7 pixels per character forces vertical mode, and the icon box is
absent. -/
theorem claim_C8_witness :
    (layout_bar_gauge smallCtx exampleMeasure "100%" (truthyStr (some "cpu"))
      (truthyStr (some "chip")).isSome).1 = true ∧
    (layout_bar_gauge smallCtx exampleMeasure "100%" (truthyStr (some "cpu"))
      (truthyStr (some "chip")).isSome).2.icon = none :=
  ⟨by decide,
    (claim_C8_icon_vertical smallCtx exampleMeasure 50 "cpu" "100%" (255, 0, 0)
      (0, 0, 0) (some "chip") (by decide)).1⟩
